import Mathlib

/-! The kahoot-backend service: the quiz handlers, the bootstrap step and the echo
loop.

A shallow embedding of `main.go`:

* `createQuiz`, `getQuizzes`, `runMigrations` and the `/ws` echo loop are
  transcribed statement by statement;
* the collaborators they call (the Fiber request context, `database/sql` over
  the `quizzes` table, `encoding/json`, the websocket connection) are modelled
  as explicit state with scripted failures, so that every branch of the Go code
  can be reached.

Log output (`log.Printf`, `log.Println`) has no influence on any result and is
not modelled.
-/

namespace Kahoot

/-! ## JSON values and HTTP responses -/

/-- JSON documents, as read and written by `encoding/json`. A number written as
an integer literal is `num`; a number written with a fraction or an exponent is
`float`, kept as its literal. -/
inductive JSON where
  | null
  | bool (b : Bool)
  | num (n : Int)
  | float (literal : String)
  | str (s : String)
  | arr (items : List JSON)
  | obj (fields : List (String × JSON))
deriving Repr

/-- The `Quiz` struct of `main.go`. -/
structure Quiz where
  ID : Int
  Title : String
  Description : String
  CreatedAt : String
deriving DecidableEq, Repr

/-- The value of `var quiz Quiz`: every field at its zero value. -/
def Quiz.zero : Quiz := ⟨0, "", "", ""⟩

/-- An HTTP response: the status code and the JSON document of the body. -/
structure Response where
  status : Nat
  body : JSON
deriving Repr

/-- Fiber constant `fiber.StatusOK`, the status of a response on which `Status`
was never called. -/
def StatusOK : Nat := 200

/-- Fiber constant `fiber.StatusCreated`. -/
def StatusCreated : Nat := 201

/-- Fiber constant `fiber.StatusBadRequest`. -/
def StatusBadRequest : Nat := 400

/-- Fiber constant `fiber.StatusInternalServerError`. -/
def StatusInternalServerError : Nat := 500

/-- What `json.Marshal` writes for a `Quiz`: one object, keys taken from the
struct tags, in field order. -/
def marshalQuiz (q : Quiz) : JSON :=
  .obj [("id", .num q.ID), ("title", .str q.Title),
        ("description", .str q.Description), ("created_at", .str q.CreatedAt)]

/-- What `json.Marshal` writes for `fiber.Map` with the single key `error`. -/
def errorMap (msg : String) : JSON :=
  .obj [("error", .str msg)]

/-- A Go slice value: either `nil` or a slice over some elements. -/
inductive Slice (α : Type) where
  | nil
  | mk (elems : List α)
deriving Repr

/-- Go `append(s, x)`: appending to the nil slice allocates a one-element
slice. -/
def Slice.append {α : Type} : Slice α → α → Slice α
  | .nil, x => .mk [x]
  | .mk xs, x => .mk (xs ++ [x])

/-- What `json.Marshal` writes for a `[]Quiz`: the nil slice is encoded as
`null`, any other slice as an array of its elements. -/
def marshalQuizzes : Slice Quiz → JSON
  | .nil => .null
  | .mk qs => .arr (qs.map marshalQuiz)

/-! ## The persistence store -/

/-- One row of the `quizzes` table created by `runMigrations`: `id` is the
primary key and `title` is `NOT NULL`; `description` and `created_at` are
nullable columns. A timestamp is the number of microseconds since the epoch. -/
structure Row where
  id : Int
  title : String
  description : Option String
  created_at : Option Nat
deriving DecidableEq, Repr

/-- The `quizzes` relation: its rows, in insertion order, and the next value of
the sequence behind `id SERIAL`. -/
structure Table where
  rows : List Row
  seq : Int
deriving DecidableEq, Repr

/-- The statements `main.go` sends to the store. -/
inductive Stmt where
  | createTable
  | countRows
  | insertSamples
  | insertQuiz (title description : String)
  | selectQuizzes
deriving DecidableEq, Repr

/-- A scripted failure of one statement. `refuse e`: the statement fails with
error `e`. `breakAfter k e`: the result stream of the list query breaks with
error `e` once `k` rows were delivered (before the first row, that is for
`k = 0`, the query call itself fails); any other statement fails with `e`. -/
inductive Fault where
  | refuse (e : String)
  | breakAfter (k : Nat) (e : String)
deriving DecidableEq, Repr

/-- The error a fault surfaces as. -/
def Fault.err : Fault → String
  | .refuse e => e
  | .breakAfter _ e => e

/-- The store behind `*sql.DB`.

* `quizzes` is the relation, `none` while it does not exist;
* `clock` is the store's `CURRENT_TIMESTAMP`;
* `faults` scripts the outcome of the statements to come, one entry per
  statement (`none`, or an exhausted script: the statement runs normally);
* `log` records every statement issued, oldest first.

A statement that fails has no effect on `quizzes`. -/
structure DB where
  quizzes : Option Table
  clock : Nat
  faults : List (Option Fault)
  log : List Stmt
deriving DecidableEq, Repr

/-- The rows currently stored (none while the relation does not exist). -/
def DB.rows (db : DB) : List Row :=
  match db.quizzes with
  | none => []
  | some t => t.rows

/-- The failure scripted for the next statement, if any. -/
def nextFault : List (Option Fault) → Option Fault
  | [] => none
  | f :: _ => f

/-- Sending a statement: it is logged and consumes one entry of the fault
script. -/
def DB.send (db : DB) (s : Stmt) : DB × Option Fault :=
  ({ db with faults := db.faults.tail, log := db.log ++ [s] }, nextFault db.faults)

/-- The error of a statement that names the relation before it was created. -/
def undefinedTable : String := "pq: relation \"quizzes\" does not exist"

/-- The statement `CREATE TABLE IF NOT EXISTS quizzes (...)` through `db.Exec`:
creates the empty relation, with its sequence at 1, unless it exists. -/
def DB.ExecCreateTable (db : DB) : DB × Except String Unit :=
  match db.send .createTable with
  | (db1, some f) => (db1, .error f.err)
  | (db1, none) =>
    match db1.quizzes with
    | some _ => (db1, .ok ())
    | none => ({ db1 with quizzes := some ⟨[], 1⟩ }, .ok ())

/-- The statement `SELECT COUNT(*) FROM quizzes` through `db.QueryRow` followed
by `Scan(&count)`. -/
def DB.QueryRowCount (db : DB) : DB × Except String Int :=
  match db.send .countRows with
  | (db1, some f) => (db1, .error f.err)
  | (db1, none) =>
    match db1.quizzes with
    | none => (db1, .error undefinedTable)
    | some t => (db1, .ok t.rows.length)

/-- The three rows of the sample `INSERT`, with the ids the sequence hands out
from `seq` on and the timestamp of the statement. -/
def sampleRows (seq : Int) (now : Nat) : List Row :=
  [⟨seq, "General Knowledge Quiz", some "Test your knowledge across various topics", some now⟩,
   ⟨seq + 1, "Science Quiz", some "Explore the wonders of science", some now⟩,
   ⟨seq + 2, "History Quiz", some "Journey through time with historical facts", some now⟩]

/-- The three-row sample `INSERT INTO quizzes (title, description) VALUES ...`
through `db.Exec`. -/
def DB.ExecInsertSamples (db : DB) : DB × Except String Unit :=
  match db.send .insertSamples with
  | (db1, some f) => (db1, .error f.err)
  | (db1, none) =>
    match db1.quizzes with
    | none => (db1, .error undefinedTable)
    | some t =>
      ({ db1 with quizzes := some ⟨t.rows ++ sampleRows t.seq db1.clock, t.seq + 3⟩ }, .ok ())

/-- Assignment to the column `title VARCHAR(255)`: a value of at most 255
characters is stored as it is, a longer one is cut to 255 characters when all
the excess characters are spaces and is rejected otherwise. -/
def varchar255 (s : String) : Option String :=
  if s.length ≤ 255 then some s
  else if (s.data.drop 255).all (fun ch => ch == ' ') then some (String.mk (s.data.take 255))
  else none

/-- The statement `INSERT INTO quizzes (title, description) VALUES ($1, $2)
RETURNING id` through `db.QueryRow` followed by `Scan(&id)`: one row is added
with the next id of the sequence and the store's timestamp, and that id is
returned. -/
def DB.QueryRowInsert (db : DB) (title description : String) : DB × Except String Int :=
  match db.send (.insertQuiz title description) with
  | (db1, some f) => (db1, .error f.err)
  | (db1, none) =>
    match db1.quizzes with
    | none => (db1, .error undefinedTable)
    | some t =>
      match varchar255 title with
      | none => (db1, .error "pq: value too long for type character varying(255)")
      | some stored =>
        let row : Row := ⟨t.seq, stored, some description, some db1.clock⟩
        ({ db1 with quizzes := some ⟨t.rows ++ [row], t.seq + 1⟩ }, .ok t.seq)

/-- The comparison of `ORDER BY created_at DESC`: `a` may stand before `b`.
A null timestamp sorts before every other value. -/
def createdAtDesc (a b : Row) : Bool :=
  match a.created_at, b.created_at with
  | none, _ => true
  | some _, none => false
  | some x, some y => decide (y ≤ x)

/-- Insertion of one row into a list ordered by `createdAtDesc`. -/
def insertDesc (r : Row) : List Row → List Row
  | [] => [r]
  | x :: xs => if createdAtDesc r x then r :: x :: xs else x :: insertDesc r xs

/-- The result order of `ORDER BY created_at DESC`. Rows with equal timestamps
keep their insertion order (the store leaves their order open). -/
def orderByCreatedAtDesc (rows : List Row) : List Row :=
  rows.foldr insertDesc []

/-- The result set behind `*sql.Rows`: the rows `rows.Next()` hands out before
it returns false, and the value of `rows.Err()` afterwards. -/
structure Rows where
  rows : List Row
  err : Option String
deriving DecidableEq, Repr

/-- The statement `SELECT id, title, description, created_at FROM quizzes ORDER
BY created_at DESC` through `db.Query`. The relation is not changed. -/
def DB.Query (db : DB) : DB × Except String Rows :=
  match db.send .selectQuizzes with
  | (db1, some (.refuse e)) => (db1, .error e)
  | (db1, some (.breakAfter 0 e)) => (db1, .error e)
  | (db1, some (.breakAfter (k + 1) e)) =>
    match db1.quizzes with
    | none => (db1, .error undefinedTable)
    | some t => (db1, .ok ⟨(orderByCreatedAtDesc t.rows).take (k + 1), some e⟩)
  | (db1, none) =>
    match db1.quizzes with
    | none => (db1, .error undefinedTable)
    | some t => (db1, .ok ⟨orderByCreatedAtDesc t.rows, none⟩)

/-! ## Scanning a row -/

/-- Decimal digits of `n`, left-padded with zeros to `w` characters. -/
def pad (w n : Nat) : String :=
  let s := toString n
  "".pushn '0' (w - s.length) ++ s

/-- Civil date `(year, month, day)` of the day `days` after 1970-01-01. -/
def civil (days : Nat) : Nat × Nat × Nat :=
  let z := days + 719468
  let era := z / 146097
  let doe := z % 146097
  let yoe := (doe - doe / 1460 + doe / 36524 - doe / 146096) / 365
  let doy := doe - (365 * yoe + yoe / 4 - yoe / 100)
  let mp := (5 * doy + 2) / 153
  let d := doy - (153 * mp + 2) / 5 + 1
  let m := if mp < 10 then mp + 3 else mp - 9
  let y := yoe + era * 400
  (if m ≤ 2 then y + 1 else y, m, d)

/-- Fraction of a second, in microseconds, as `time.RFC3339Nano` prints it:
nothing when zero, otherwise a dot and the digits without trailing zeros. -/
def fraction (micros : Nat) : String :=
  if micros = 0 then ""
  else "." ++ String.mk ((pad 6 micros).data.reverse.dropWhile (fun ch => ch == '0')).reverse

/-- The text `database/sql` assigns to a `*string` destination for a timestamp
column: `time.Time.Format(time.RFC3339Nano)` of the time value the driver
hands over, which for `TIMESTAMP` (no time zone) carries the zero offset. -/
def formatRFC3339Nano (t : Nat) : String :=
  let secs := t / 1000000
  let (y, m, d) := civil (secs / 86400)
  let s := secs % 86400
  pad 4 y ++ "-" ++ pad 2 m ++ "-" ++ pad 2 d ++ "T" ++
    pad 2 (s / 3600) ++ ":" ++ pad 2 (s % 3600 / 60) ++ ":" ++ pad 2 (s % 60) ++
    fraction (t % 1000000) ++ "Z"

/-- The error of `rows.Scan` when a null column meets a `*string`
destination. -/
def scanNull (index : Nat) (column : String) : String :=
  "sql: Scan error on column index " ++ toString index ++ ", name \"" ++ column ++
    "\": converting NULL to string is unsupported"

/-- The call `rows.Scan(&quiz.ID, &quiz.Title, &quiz.Description,
&quiz.CreatedAt)` on one row: it fails on the first null column. -/
def Scan (r : Row) : Except String Quiz :=
  match r.description with
  | none => .error (scanNull 2 "description")
  | some d =>
    match r.created_at with
    | none => .error (scanNull 3 "created_at")
    | some t => .ok ⟨r.id, r.title, d, formatRFC3339Nano t⟩

/-! ## The request context -/

/-- The part of `*fiber.Ctx` and of the process environment that `createQuiz`
reads: `BodyParser` is `c.BodyParser(&quiz)`, from the value of `quiz` before
the call to the error or the value after it; `now` is
`time.Now().Format(time.RFC3339)`. -/
structure Ctx where
  BodyParser : Quiz → Except String Quiz
  now : String

/-- Case folding of one character of a key, as `encoding/json` compares keys:
letters fold to lower case, and the long s (U+017F) and the Kelvin sign
(U+212A) fold to `s` and `k`. -/
def foldChar (ch : Char) : Char :=
  if ch = Char.ofNat 383 then 's'
  else if ch = Char.ofNat 8490 then 'k'
  else ch.toLower

/-- The folded form of a key. -/
def foldName (s : String) : String :=
  String.mk (s.data.map foldChar)

/-- The range of the Go type `int` on a 64-bit platform. -/
def fitsInt (n : Int) : Bool :=
  decide (-9223372036854775808 ≤ n ∧ n ≤ 9223372036854775807)

/-- How the error of `json.Unmarshal` names the JSON value that did not fit. -/
def JSON.kind : JSON → String
  | .null => "null"
  | .bool _ => "bool"
  | .num _ => "number"
  | .float _ => "number"
  | .str _ => "string"
  | .arr _ => "array"
  | .obj _ => "object"

/-- The text of the `UnmarshalTypeError` for a value (described by `value`)
that does not fit the field with tag `field` and Go type `type`. -/
def mismatch (value field type : String) : String :=
  "json: cannot unmarshal " ++ value ++ " into Go struct field Quiz." ++ field ++
    " of type " ++ type

/-- How `json.Unmarshal` stores one member of a JSON object into a `Quiz`: the
key selects the field by its tag, up to case folding; a key that names no field
is skipped; `null` leaves the field as it is; any other value must have the
type of the field, and a number stored into `id` must be an integer literal in
the range of `int`. -/
def setField (q : Quiz) (member : String × JSON) : Except String Quiz :=
  if foldName member.1 = "id" then
    match member.2 with
    | .null => .ok q
    | .num n =>
      if fitsInt n then .ok { q with ID := n }
      else .error (mismatch ("number " ++ toString n) "id" "int")
    | .float literal => .error (mismatch ("number " ++ literal) "id" "int")
    | v => .error (mismatch v.kind "id" "int")
  else if foldName member.1 = "title" then
    match member.2 with
    | .null => .ok q
    | .str s => .ok { q with Title := s }
    | v => .error (mismatch v.kind "title" "string")
  else if foldName member.1 = "description" then
    match member.2 with
    | .null => .ok q
    | .str s => .ok { q with Description := s }
    | v => .error (mismatch v.kind "description" "string")
  else if foldName member.1 = "created_at" then
    match member.2 with
    | .null => .ok q
    | .str s => .ok { q with CreatedAt := s }
    | v => .error (mismatch v.kind "created_at" "string")
  else .ok q

/-- The members of an object stored one after the other, stopping at the first
one that does not fit. -/
def setFields : List (String × JSON) → Quiz → Except String Quiz
  | [], q => .ok q
  | member :: rest, q =>
    match setField q member with
    | .error e => .error e
    | .ok q1 => setFields rest q1

/-- The call `json.Unmarshal(body, &quiz)` on a body that is a JSON document:
`null` changes nothing, an object is stored member by member, and any other
document is a type error. -/
def unmarshalQuiz (doc : JSON) (q : Quiz) : Except String Quiz :=
  match doc with
  | .null => .ok q
  | .obj members => setFields members q
  | v => .error ("json: cannot unmarshal " ++ v.kind ++ " into Go value of type main.Quiz")

/-- The context of a request with content type `application/json`: `body` is
the document the request body denotes, `none` when the body is not a JSON
text. -/
def jsonCtx (body : Option JSON) (now : String) : Ctx where
  BodyParser q :=
    match body with
    | none => .error "unexpected end of JSON input"
    | some doc => unmarshalQuiz doc q
  now := now

/-! ## The handlers -/

/-- The handler returned by `createQuiz(db)`, on the store state `db` and the
request context `c`: the store state afterwards and the response. -/
def createQuiz (db : DB) (c : Ctx) : DB × Response :=
  match c.BodyParser Quiz.zero with
  | .error _ => (db, ⟨StatusBadRequest, errorMap "Invalid request body"⟩)
  | .ok quiz =>
    match db.QueryRowInsert quiz.Title quiz.Description with
    | (db1, .error _) => (db1, ⟨StatusInternalServerError, errorMap "Failed to create quiz"⟩)
    | (db1, .ok id) =>
      (db1, ⟨StatusCreated, marshalQuiz ⟨id, quiz.Title, quiz.Description, c.now⟩⟩)

/-- The loop `for rows.Next()` of `getQuizzes`: every row is scanned and
appended to `quizzes`; the first scan error leaves the loop (and the
handler). -/
def scanRows : List Row → Slice Quiz → Except String (Slice Quiz)
  | [], quizzes => .ok quizzes
  | r :: rest, quizzes =>
    match Scan r with
    | .error e => .error e
    | .ok quiz => scanRows rest (quizzes.append quiz)

/-- The handler returned by `getQuizzes(db)`, on the store state `db`: the store
state afterwards and the response. `quizzes` starts as the nil slice of
`var quizzes []Quiz`. -/
def getQuizzes (db : DB) : DB × Response :=
  match db.Query with
  | (db1, .error _) =>
    (db1, ⟨StatusInternalServerError, errorMap "Failed to fetch quizzes"⟩)
  | (db1, .ok rows) =>
    match scanRows rows.rows Slice.nil with
    | .error _ => (db1, ⟨StatusInternalServerError, errorMap "Failed to process quiz data"⟩)
    | .ok quizzes =>
      match rows.err with
      | some _ =>
        (db1, ⟨StatusInternalServerError, errorMap "Failed to retrieve all quizzes"⟩)
      | none => (db1, ⟨StatusOK, marshalQuizzes quizzes⟩)

/-- The bootstrap step `runMigrations(db)`: the store state afterwards and the
returned error, if any. -/
def runMigrations (db : DB) : DB × Except String Unit :=
  match db.ExecCreateTable with
  | (db1, .error e) => (db1, .error ("failed to create quizzes table: " ++ e))
  | (db1, .ok _) =>
    match db1.QueryRowCount with
    | (db2, .error e) => (db2, .error ("failed to check if quizzes table is empty: " ++ e))
    | (db2, .ok count) =>
      if count = 0 then
        match db2.ExecInsertSamples with
        | (db3, .error e) => (db3, .error ("failed to insert sample data: " ++ e))
        | (db3, .ok _) => (db3, .ok ())
      else (db2, .ok ())

/-! ## The echo loop of `/ws` -/

/-- A websocket message: its type (`mt`) and its payload (`msg`). -/
structure Frame where
  mt : Int
  msg : List UInt8
deriving DecidableEq, Repr

/-- One call the echo loop makes on the connection, with its outcome:
`ReadMessage` returned a frame or an error, `WriteMessage(mt, msg)` returned
`nil` (`none`) or an error. -/
inductive Event where
  | read (result : Except String Frame)
  | write (frame : Frame) (err : Option String)

/-- The error of `ReadMessage` on a connection that delivers nothing more. -/
def closedConn : String := "websocket: close 1006 (abnormal closure): unexpected EOF"

/-- The loop of the `/ws` handler. `reads` scripts the results of the
`ReadMessage` calls to come (exhausted: the connection is closed); `writes`
scripts the results of the `WriteMessage` calls to come (exhausted: the write
succeeds). The result is the sequence of calls made, in order. -/
def echoLoop : List (Except String Frame) → List (Option String) → List Event
  | [], _ => [.read (.error closedConn)]
  | .error e :: _, _ => [.read (.error e)]
  | .ok f :: reads, [] => .read (.ok f) :: .write f none :: echoLoop reads []
  | .ok f :: reads, none :: writes => .read (.ok f) :: .write f none :: echoLoop reads writes
  | .ok f :: _, some e :: _ => [.read (.ok f), .write f (some e)]

/-- The frames written back successfully, in order. -/
def echoed : List Event → List Frame
  | [] => []
  | .write f none :: rest => f :: echoed rest
  | _ :: rest => echoed rest

/-- The frames a read script delivers before its first error, in order. -/
def delivered : List (Except String Frame) → List Frame
  | .ok f :: rest => f :: delivered rest
  | _ => []

/-- An event that reports an error: a failed read or a failed write. -/
def Event.failed : Event → Bool
  | .read (.error _) => true
  | .write _ (some _) => true
  | _ => false

/-- The results of the `ReadMessage` calls of a run, in order. -/
def readResults : List Event → List (Except String Frame)
  | [] => []
  | .read r :: rest => r :: readResults rest
  | .write _ _ :: rest => readResults rest

/-- The results of the `WriteMessage` calls of a run, in order. -/
def writeResults : List Event → List (Option String)
  | [] => []
  | .read _ :: rest => writeResults rest
  | .write _ err :: rest => err :: writeResults rest

/-- The position of the first error in a write script, if it has one. -/
def firstWriteError : List (Option String) → Option Nat
  | [] => none
  | some _ :: _ => some 0
  | none :: rest => (firstWriteError rest).map (fun k => k + 1)

/-! ## Vocabulary of the properties -/

/-- The document `x` occurs in the document `y`: it is `y` itself, or occurs in
an element or in a member value of `y`. -/
inductive JSON.Occurs (x : JSON) : JSON → Prop where
  | here : JSON.Occurs x x
  | element (items : List JSON) (y : JSON) : y ∈ items → JSON.Occurs x y →
      JSON.Occurs x (.arr items)
  | member (fields : List (String × JSON)) (k : String) (y : JSON) : (k, y) ∈ fields →
      JSON.Occurs x y → JSON.Occurs x (.obj fields)

/-- The JSON object that carries the values of a stored row with description
`d` and timestamp `t`. -/
def IsObjectOf (r : Row) (item : JSON) : Prop :=
  ∃ (d : String) (t : Nat), r.description = some d ∧ r.created_at = some t ∧
    item = .obj [("id", .num r.id), ("title", .str r.title), ("description", .str d),
      ("created_at", .str (formatRFC3339Nano t))]

/-- No failure is scripted for any statement to come: every statement the
store receives succeeds, as far as the store itself allows. -/
def DB.reliable (db : DB) : Prop :=
  ∀ f ∈ db.faults, f = none

/-! ## Concrete states and requests -/

/-- A store in which the relation was never created. -/
def freshStore : DB := ⟨none, 1700000000000000, [none, none, none], []⟩


/-- A store whose relation exists and is empty, with no failure scripted. -/
def emptyStore : DB := ⟨some ⟨[], 1⟩, 1700000000000000, [], []⟩

/-- A store holding two decodable rows. -/
def twoRowStore : DB :=
  ⟨some ⟨[⟨1, "Capitals", some "Cities of the world", some 1700000000000000⟩,
          ⟨2, "Rivers", some "", some 1700000360500000⟩], 3⟩, 1700000400000000, [], []⟩

/-- A store whose next statement is refused. -/
def refusingStore : DB := { twoRowStore with faults := [some (.refuse "pq: connection refused")] }

/-- A store whose next statement is refused with another error. -/
def timeoutStore : DB := { twoRowStore with faults := [some (.refuse "driver: bad connection")] }

/-- A store whose second row, of three, has a null description. -/
def nullRowStore : DB :=
  ⟨some ⟨[⟨1, "Capitals", some "Cities of the world", some 1700000000000000⟩,
          ⟨2, "Rivers", none, some 1700000000000001⟩,
          ⟨3, "Lakes", some "Still water", some 1700000000000002⟩], 4⟩, 1700000400000000, [], []⟩

/-- The result set of the list query on `nullRowStore`: newest row first. -/
def nullRowResult : Rows :=
  ⟨[⟨3, "Lakes", some "Still water", some 1700000000000002⟩,
    ⟨2, "Rivers", none, some 1700000000000001⟩,
    ⟨1, "Capitals", some "Cities of the world", some 1700000000000000⟩], none⟩

/-- The row of `nullRowStore` whose description is null. -/
def nullRow : Row := ⟨2, "Rivers", none, some 1700000000000001⟩

/-- The rows of the list query on `twoRowStore`: newest row first. -/
def twoRowResult : List Row :=
  [⟨2, "Rivers", some "", some 1700000360500000⟩,
   ⟨1, "Capitals", some "Cities of the world", some 1700000000000000⟩]

/-- A read script: a text frame, a binary frame, then a read error. -/
def sampleReads : List (Except String Frame) :=
  [.ok ⟨1, [104, 105]⟩, .ok ⟨2, [0, 255, 16]⟩, .error "read: connection reset by peer",
   .ok ⟨1, [33]⟩]

/-- A read script of three frames, for a connection whose second write fails. -/
def threeFrames : List (Except String Frame) :=
  [.ok ⟨1, [97]⟩, .ok ⟨1, [98]⟩, .ok ⟨1, [99]⟩]

/-- A create request whose `title` is a number. -/
def numericTitle : Ctx :=
  jsonCtx (some (.obj [("title", .num 42), ("description", .str "d")])) "2024-05-01T10:00:00Z"

/-- A create request with `title` and `description` only. -/
def plainRequest : Ctx :=
  jsonCtx (some (.obj [("title", .str "Capitals"), ("description", .str "Cities")]))
    "2024-05-01T10:00:00Z"

/-- The same create request with an `id` and a `created_at` added. -/
def forgedRequest : Ctx :=
  jsonCtx (some (.obj [("id", .num 999), ("title", .str "Capitals"),
    ("description", .str "Cities"), ("created_at", .str "1999-01-01T00:00:00Z")]))
    "2024-05-01T10:00:00Z"

/-! ## Properties of the create handler -/

/-- A body that does not parse gives status 400 without touching the store. -/
theorem createQuiz_of_parse_error (db : DB) (c : Ctx) (e : String)
    (h : c.BodyParser Quiz.zero = .error e) :
    createQuiz db c = (db, ⟨StatusBadRequest, errorMap "Invalid request body"⟩) := by
  simp [createQuiz, h]

/-- A failed insert gives status 500 with the fixed message. -/
theorem createQuiz_of_insert_error (db db1 : DB) (c : Ctx) (q : Quiz) (e : String)
    (hp : c.BodyParser Quiz.zero = .ok q)
    (hi : db.QueryRowInsert q.Title q.Description = (db1, .error e)) :
    createQuiz db c = (db1, ⟨StatusInternalServerError, errorMap "Failed to create quiz"⟩) := by
  simp [createQuiz, hp, hi]

/-- A successful insert gives status 201 with the new id. -/
theorem createQuiz_of_insert_ok (db db1 : DB) (c : Ctx) (q : Quiz) (n : Int)
    (hp : c.BodyParser Quiz.zero = .ok q)
    (hi : db.QueryRowInsert q.Title q.Description = (db1, .ok n)) :
    createQuiz db c =
      (db1, ⟨StatusCreated, marshalQuiz ⟨n, q.Title, q.Description, c.now⟩⟩) := by
  simp [createQuiz, hp, hi]

/-- C2: whenever the request body fails to parse into a `Quiz`, `createQuiz`
answers 400 with the payload `error: "Invalid request body"`, and the store
state afterwards is the state before: no statement was logged and the rows are
the same. -/
theorem createQuiz_malformed_body (db : DB) (c : Ctx) (e : String)
    (h : c.BodyParser Quiz.zero = .error e) :
    (createQuiz db c).2 = ⟨400, .obj [("error", .str "Invalid request body")]⟩ ∧
    (createQuiz db c).1 = db ∧
    (createQuiz db c).1.log = db.log ∧
    (createQuiz db c).1.rows = db.rows := by
  rw [createQuiz_of_parse_error db c e h]
  exact ⟨rfl, rfl, rfl, rfl⟩

/-- C2 at a request whose `title` is the number 42, on a store with two rows. -/
theorem createQuiz_malformed_body_witness :
    numericTitle.BodyParser Quiz.zero
        = .error "json: cannot unmarshal number into Go struct field Quiz.title of type string" ∧
    (createQuiz twoRowStore numericTitle).2 = ⟨400, .obj [("error", .str "Invalid request body")]⟩ ∧
    (createQuiz twoRowStore numericTitle).1 = twoRowStore ∧
    (createQuiz twoRowStore numericTitle).1.log = twoRowStore.log ∧
    (createQuiz twoRowStore numericTitle).1.rows = twoRowStore.rows :=
  ⟨rfl, createQuiz_malformed_body twoRowStore numericTitle _ rfl⟩

/-- C3: when the body parses to `q` and the insert of `q.Title`, `q.Description`
succeeds returning id `n`, `createQuiz` answers 201 with a Quiz whose `id` is
`n` and whose `title` and `description` are those of the body; and a second
request that parses to the same `title` and `description` (whatever its `id` and
`created_at`), handled at the same time on the same store, leaves the same store
state and gets the same response. -/
theorem createQuiz_created (db db1 : DB) (c : Ctx) (q : Quiz) (n : Int)
    (hp : c.BodyParser Quiz.zero = .ok q)
    (hi : db.QueryRowInsert q.Title q.Description = (db1, .ok n)) :
    createQuiz db c =
      (db1, ⟨201, .obj [("id", .num n), ("title", .str q.Title),
        ("description", .str q.Description), ("created_at", .str c.now)]⟩) ∧
    ∀ (c2 : Ctx) (q2 : Quiz), c2.BodyParser Quiz.zero = .ok q2 →
      q2.Title = q.Title → q2.Description = q.Description → c2.now = c.now →
      createQuiz db c2 = createQuiz db c := by
  refine ⟨createQuiz_of_insert_ok db db1 c q n hp hi, ?_⟩
  intro c2 q2 hp2 ht hd hn
  rw [createQuiz_of_insert_ok db db1 c q n hp hi,
    createQuiz_of_insert_ok db db1 c2 q2 n hp2 (by rw [ht, hd]; exact hi), ht, hd, hn]

/-- C3 at a request carrying `id` 999 and a `created_at`, against the same
request without them, on the empty store. -/
theorem createQuiz_created_witness :
    (forgedRequest.BodyParser Quiz.zero
        = .ok ⟨999, "Capitals", "Cities", "1999-01-01T00:00:00Z"⟩ ∧
      emptyStore.QueryRowInsert "Capitals" "Cities"
        = (⟨some ⟨[⟨1, "Capitals", some "Cities", some 1700000000000000⟩], 2⟩,
            1700000000000000, [], [.insertQuiz "Capitals" "Cities"]⟩, .ok 1)) ∧
    createQuiz emptyStore forgedRequest =
      (⟨some ⟨[⟨1, "Capitals", some "Cities", some 1700000000000000⟩], 2⟩,
          1700000000000000, [], [.insertQuiz "Capitals" "Cities"]⟩,
        ⟨201, .obj [("id", .num 1), ("title", .str "Capitals"),
          ("description", .str "Cities"), ("created_at", .str "2024-05-01T10:00:00Z")]⟩) ∧
    createQuiz emptyStore plainRequest = createQuiz emptyStore forgedRequest :=
  ⟨⟨rfl, rfl⟩,
    (createQuiz_created emptyStore _ forgedRequest
      ⟨999, "Capitals", "Cities", "1999-01-01T00:00:00Z"⟩ 1 rfl rfl).1,
    (createQuiz_created emptyStore _ forgedRequest
      ⟨999, "Capitals", "Cities", "1999-01-01T00:00:00Z"⟩ 1 rfl rfl).2
      plainRequest ⟨0, "Capitals", "Cities", ""⟩ rfl rfl rfl rfl⟩

/-- C5: for parsable bodies, whenever the insert fails, `createQuiz` answers 500
with the payload `error: "Failed to create quiz"`; two runs whose inserts fail,
with whatever errors, get identical responses. -/
theorem createQuiz_store_failure (db db1 dc dc1 : DB) (c c2 : Ctx) (q q2 : Quiz)
    (e e2 : String)
    (hp : c.BodyParser Quiz.zero = .ok q)
    (hi : db.QueryRowInsert q.Title q.Description = (db1, .error e))
    (hp2 : c2.BodyParser Quiz.zero = .ok q2)
    (hi2 : dc.QueryRowInsert q2.Title q2.Description = (dc1, .error e2)) :
    (createQuiz db c).2 = ⟨500, .obj [("error", .str "Failed to create quiz")]⟩ ∧
    (createQuiz dc c2).2 = (createQuiz db c).2 := by
  rw [createQuiz_of_insert_error db db1 c q e hp hi,
    createQuiz_of_insert_error dc dc1 c2 q2 e2 hp2 hi2]
  exact ⟨rfl, rfl⟩

/-- C5 at two stores that differ only in the error of the refused insert. -/
theorem createQuiz_store_failure_witness :
    (plainRequest.BodyParser Quiz.zero = .ok ⟨0, "Capitals", "Cities", ""⟩ ∧
      refusingStore.QueryRowInsert "Capitals" "Cities"
        = ({ twoRowStore with log := [.insertQuiz "Capitals" "Cities"] },
            .error "pq: connection refused") ∧
      timeoutStore.QueryRowInsert "Capitals" "Cities"
        = ({ twoRowStore with log := [.insertQuiz "Capitals" "Cities"] },
            .error "driver: bad connection")) ∧
    (createQuiz refusingStore plainRequest).2
      = ⟨500, .obj [("error", .str "Failed to create quiz")]⟩ ∧
    (createQuiz timeoutStore plainRequest).2 = (createQuiz refusingStore plainRequest).2 :=
  ⟨⟨rfl, rfl, rfl⟩,
    createQuiz_store_failure refusingStore _ timeoutStore _ plainRequest plainRequest
      ⟨0, "Capitals", "Cities", ""⟩ ⟨0, "Capitals", "Cities", ""⟩ _ _ rfl rfl rfl rfl⟩

/-! ## Properties of the list handler -/

/-- The scan loop fails as soon as one of the rows fails to scan, whatever was
collected before. -/
theorem scanRows_error_of_mem (rows : List Row) (r : Row) (e : String)
    (hr : r ∈ rows) (hs : Scan r = .error e) (acc : Slice Quiz) :
    ∃ e1, scanRows rows acc = .error e1 := by
  induction rows generalizing acc with
  | nil => cases hr
  | cons x rest ih =>
    cases hx : Scan x with
    | error e1 => exact ⟨e1, by simp [scanRows, hx]⟩
    | ok q =>
      have hmem : r ∈ rest := by
        rcases List.mem_cons.mp hr with h | h
        · subst h; rw [hs] at hx; cases hx
        · exact h
      obtain ⟨e1, h1⟩ := ih hmem (acc.append q)
      exact ⟨e1, by simp [scanRows, hx, h1]⟩

/-- A row that fails to scan gives status 500 with the message of the scan
branch. -/
theorem getQuizzes_of_scan_error (db db1 : DB) (rows : Rows) (r : Row) (e : String)
    (hq : db.Query = (db1, .ok rows)) (hr : r ∈ rows.rows) (hs : Scan r = .error e) :
    getQuizzes db =
      (db1, ⟨StatusInternalServerError, errorMap "Failed to process quiz data"⟩) := by
  obtain ⟨e1, h1⟩ := scanRows_error_of_mem rows.rows r e hr hs Slice.nil
  simp [getQuizzes, hq, h1]

/-- Scanning rows that all decode appends their quizzes, in order, to a slice
that is not nil. -/
theorem scanRows_mk (rows : List Row) (h : ∀ r ∈ rows, ∃ q, Scan r = .ok q)
    (acc : List Quiz) :
    ∃ qs, scanRows rows (.mk acc) = .ok (.mk (acc ++ qs)) ∧
      List.Forall₂ (fun r q => Scan r = .ok q) rows qs := by
  induction rows generalizing acc with
  | nil => exact ⟨[], by simp [scanRows], List.Forall₂.nil⟩
  | cons x rest ih =>
    obtain ⟨q, hq⟩ := h x (List.mem_cons_self x rest)
    obtain ⟨qs, h1, h2⟩ := ih (fun r hr => h r (List.mem_cons_of_mem x hr)) (acc ++ [q])
    exact ⟨q :: qs, by simp [scanRows, hq, Slice.append, h1], List.Forall₂.cons hq h2⟩

/-- Scanning at least one row, all of which decode, from the nil slice gives the
slice of their quizzes, in order. -/
theorem scanRows_nil (x : Row) (rest : List Row)
    (h : ∀ r ∈ x :: rest, ∃ q, Scan r = .ok q) :
    ∃ qs, scanRows (x :: rest) Slice.nil = .ok (.mk qs) ∧
      List.Forall₂ (fun r q => Scan r = .ok q) (x :: rest) qs := by
  obtain ⟨q, hq⟩ := h x (List.mem_cons_self x rest)
  obtain ⟨qs, h1, h2⟩ := scanRows_mk rest (fun r hr => h r (List.mem_cons_of_mem x hr)) [q]
  exact ⟨q :: qs, by simp [scanRows, hq, Slice.append, h1], List.Forall₂.cons hq h2⟩

/-- A row that scans gives the quiz whose JSON object carries the values of the
row. -/
theorem isObjectOf_of_scan (r : Row) (q : Quiz) (h : Scan r = .ok q) :
    IsObjectOf r (marshalQuiz q) := by
  unfold Scan at h
  cases hd : r.description with
  | none => simp [hd] at h
  | some d =>
    cases ht : r.created_at with
    | none => simp [hd, ht] at h
    | some t =>
      simp only [hd, ht, Except.ok.injEq] at h
      subst h
      exact ⟨d, t, hd, ht, rfl⟩

/-- C1 (the code at an empty table): `getQuizzes` on a store whose relation
exists, is empty and answers the query answers 200 with the body `null`, which
is not the empty array. -/
theorem getQuizzes_empty_table :
    (getQuizzes emptyStore).2.status = 200 ∧
    (getQuizzes emptyStore).2.body = JSON.null ∧
    (getQuizzes emptyStore).2.body ≠ JSON.arr [] := by
  refine ⟨rfl, rfl, ?_⟩
  intro h
  cases h

/-- A document that occurs in an `error` payload is the payload or its
message. -/
theorem occurs_errorMap (x : JSON) (msg : String) (h : JSON.Occurs x (errorMap msg)) :
    x = errorMap msg ∨ x = .str msg := by
  generalize hb : errorMap msg = b at h
  cases h with
  | here => exact Or.inl rfl
  | element items y _ _ => simp [errorMap] at hb
  | member fields k y hmem hy =>
    simp only [errorMap, JSON.obj.injEq] at hb
    subst hb
    simp only [List.mem_singleton, Prod.mk.injEq] at hmem
    obtain ⟨_, rfl⟩ := hmem
    generalize hc : JSON.str msg = c at hy
    cases hy with
    | here => exact Or.inr rfl
    | element items y _ _ => cases hc
    | member fields k y _ _ => cases hc

/-- C6: whenever the query succeeds and one of the rows it hands out fails to
decode, `getQuizzes` answers 500 with the payload `error: "Failed to process
quiz data"`, wherever that row stands among the others; no Quiz object occurs
in that payload, so none of the rows is returned. -/
theorem getQuizzes_decode_failure (db db1 : DB) (rows : Rows) (r : Row) (e : String)
    (hq : db.Query = (db1, .ok rows)) (hr : r ∈ rows.rows) (hs : Scan r = .error e) :
    (getQuizzes db).2 = ⟨500, .obj [("error", .str "Failed to process quiz data")]⟩ ∧
    ∀ q : Quiz, ¬ JSON.Occurs (marshalQuiz q) (getQuizzes db).2.body := by
  rw [getQuizzes_of_scan_error db db1 rows r e hq hr hs]
  refine ⟨rfl, ?_⟩
  intro q h
  rcases occurs_errorMap _ _ h with h1 | h1 <;> simp [marshalQuiz, errorMap] at h1

/-- C6 at a store of three rows where the row scanned second has a null
description: the row scanned first decoded, and is not returned. -/
theorem getQuizzes_decode_failure_witness :
    (nullRowStore.Query = ({ nullRowStore with log := [.selectQuizzes] }, .ok nullRowResult) ∧
      nullRow ∈ nullRowResult.rows ∧
      Scan ⟨3, "Lakes", some "Still water", some 1700000000000002⟩
        = .ok ⟨3, "Lakes", "Still water", "2023-11-14T22:13:20.000002Z"⟩ ∧
      Scan nullRow = .error (scanNull 2 "description")) ∧
    (getQuizzes nullRowStore).2 = ⟨500, .obj [("error", .str "Failed to process quiz data")]⟩ ∧
    ∀ q : Quiz, ¬ JSON.Occurs (marshalQuiz q) (getQuizzes nullRowStore).2.body :=
  ⟨⟨rfl, by decide, rfl, rfl⟩,
    getQuizzes_decode_failure nullRowStore _ nullRowResult nullRow _ rfl (by decide) rfl⟩

/-- C9: whenever the query succeeds and hands out a non-empty sequence of rows
that all decode, `getQuizzes` answers 200 with a JSON array holding one object
per row, in the order of the rows, each object having the keys `id`, `title`,
`description`, `created_at`, in this order and no other, with the values of its
row (the timestamp as RFC 3339 text). -/
theorem getQuizzes_all_rows (db db1 : DB) (rows : List Row)
    (hq : db.Query = (db1, .ok ⟨rows, none⟩)) (hne : rows ≠ [])
    (hs : ∀ r ∈ rows, ∃ q, Scan r = .ok q) :
    ∃ items, (getQuizzes db).2 = ⟨200, .arr items⟩ ∧ List.Forall₂ IsObjectOf rows items := by
  cases rows with
  | nil => exact absurd rfl hne
  | cons x rest =>
    obtain ⟨qs, h1, h2⟩ := scanRows_nil x rest hs
    refine ⟨qs.map marshalQuiz, by simp [getQuizzes, hq, h1, marshalQuizzes, StatusOK], ?_⟩
    rw [List.forall₂_map_right_iff]
    exact h2.imp (fun r q h => isObjectOf_of_scan r q h)

/-- C9 at a store of two rows: the newer row comes first. -/
theorem getQuizzes_all_rows_witness :
    (twoRowStore.Query
        = ({ twoRowStore with log := [.selectQuizzes] }, .ok ⟨twoRowResult, none⟩) ∧
      twoRowResult ≠ [] ∧
      ∀ r ∈ twoRowResult, ∃ q, Scan r = .ok q) ∧
    ∃ items, (getQuizzes twoRowStore).2 = ⟨200, .arr items⟩ ∧
      List.Forall₂ IsObjectOf twoRowResult items :=
  ⟨⟨rfl, by decide, by simp [twoRowResult, Scan]⟩,
    getQuizzes_all_rows twoRowStore _ twoRowResult rfl (by decide)
      (by simp [twoRowResult, Scan])⟩

/-! ## Properties of the bootstrap step -/

/-- With no failure scripted, the next entry of the script is no failure. -/
theorem head_of_reliable (faults : List (Option Fault)) (h : ∀ f ∈ faults, f = none) :
    nextFault faults = none := by
  cases faults with
  | nil => rfl
  | cons f rest => exact h f (List.mem_cons_self f rest)

/-- With no failure scripted, none is scripted after the next statement. -/
theorem tail_of_reliable (faults : List (Option Fault)) (h : ∀ f ∈ faults, f = none) :
    ∀ f ∈ faults.tail, f = none :=
  fun f hf => h f (List.mem_of_mem_tail hf)

/-- The bootstrap step on a reliable store, by the state of the relation:
missing, empty, or holding rows. -/
theorem runMigrations_of_reliable (db : DB) (h : db.reliable) :
    runMigrations db =
      match db.quizzes with
      | none =>
        (⟨some ⟨sampleRows 1 db.clock, 4⟩, db.clock, db.faults.tail.tail.tail,
          db.log ++ [.createTable, .countRows, .insertSamples]⟩, .ok ())
      | some t =>
        if t.rows = [] then
          (⟨some ⟨sampleRows t.seq db.clock, t.seq + 3⟩, db.clock, db.faults.tail.tail.tail,
            db.log ++ [.createTable, .countRows, .insertSamples]⟩, .ok ())
        else
          (⟨some t, db.clock, db.faults.tail.tail, db.log ++ [.createTable, .countRows]⟩,
            .ok ()) := by
  have h0 := head_of_reliable db.faults h
  have h1 := head_of_reliable _ (tail_of_reliable db.faults h)
  have h2 := head_of_reliable _ (tail_of_reliable _ (tail_of_reliable db.faults h))
  cases hq : db.quizzes with
  | none =>
    simp [runMigrations, DB.ExecCreateTable, DB.QueryRowCount, DB.ExecInsertSamples, DB.send,
      h0, h1, h2, hq]
  | some t =>
    by_cases ht : t.rows = []
    · simp [runMigrations, DB.ExecCreateTable, DB.QueryRowCount, DB.ExecInsertSamples, DB.send,
        h0, h1, h2, hq, ht]
    · simp [runMigrations, DB.ExecCreateTable, DB.QueryRowCount, DB.ExecInsertSamples, DB.send,
        h0, h1, h2, hq, ht]

/-- C7: on a store all of whose statements succeed, `runMigrations` returns no
error and (1) if the table holds no row (or does not exist yet) it ends with
three rows, whose titles and descriptions are those of the sample `INSERT`, in
that order; (2) if the table holds rows, the table is left as it was; (3)
running the step a second time leaves the table as the first run left it. -/
theorem runMigrations_seeds_once (db : DB) (h : db.reliable) :
    (runMigrations db).2 = .ok () ∧
    (db.rows = [] →
      (runMigrations db).1.rows.map (fun r => (r.title, r.description)) =
        [("General Knowledge Quiz", some "Test your knowledge across various topics"),
         ("Science Quiz", some "Explore the wonders of science"),
         ("History Quiz", some "Journey through time with historical facts")]) ∧
    (db.rows ≠ [] → (runMigrations db).1.quizzes = db.quizzes) ∧
    (runMigrations (runMigrations db).1).1.quizzes = (runMigrations db).1.quizzes := by
  have hrel : ∀ (q : Option Table) (l : List Stmt) (fs : List (Option Fault)),
      (∀ f ∈ fs, f = none) → DB.reliable ⟨q, db.clock, fs, l⟩ := fun _ _ _ hfs => hfs
  have h3 := tail_of_reliable _ (tail_of_reliable _ (tail_of_reliable db.faults h))
  have h2 := tail_of_reliable _ (tail_of_reliable db.faults h)
  rw [runMigrations_of_reliable db h]
  cases hq : db.quizzes with
  | none =>
    simp only [DB.rows, hq]
    rw [runMigrations_of_reliable _ (hrel _ _ _ h3)]
    simp [sampleRows]
  | some t =>
    by_cases ht : t.rows = []
    · simp only [DB.rows, hq, ht, if_true]
      rw [runMigrations_of_reliable _ (hrel _ _ _ h3)]
      simp [sampleRows]
    · simp only [DB.rows, hq, ht, if_false]
      rw [runMigrations_of_reliable _ (hrel _ _ _ h2)]
      simp [ht]

/-- C7 at a store without the relation, which gets the three sample rows, and
at a store holding two rows, which keeps them. -/
theorem runMigrations_seeds_once_witness :
    (freshStore.reliable ∧ freshStore.rows = [] ∧ twoRowStore.reliable ∧
      twoRowStore.rows ≠ []) ∧
    (runMigrations freshStore).2 = .ok () ∧
    (runMigrations freshStore).1.rows.map (fun r => (r.title, r.description)) =
      [("General Knowledge Quiz", some "Test your knowledge across various topics"),
       ("Science Quiz", some "Explore the wonders of science"),
       ("History Quiz", some "Journey through time with historical facts")] ∧
    (runMigrations (runMigrations freshStore).1).1.quizzes
      = (runMigrations freshStore).1.quizzes ∧
    (runMigrations twoRowStore).1.quizzes = twoRowStore.quizzes :=
  ⟨⟨by simp [DB.reliable, freshStore], rfl, by simp [DB.reliable, twoRowStore], by decide⟩,
    (runMigrations_seeds_once freshStore (by simp [DB.reliable, freshStore])).1,
    (runMigrations_seeds_once freshStore (by simp [DB.reliable, freshStore])).2.1 rfl,
    (runMigrations_seeds_once freshStore (by simp [DB.reliable, freshStore])).2.2.2,
    (runMigrations_seeds_once twoRowStore (by simp [DB.reliable, twoRowStore])).2.2.1
      (by decide)⟩

/-! ## No handler changes a stored row -/

/-- The list query leaves the relation as it is. -/
theorem query_quizzes (db : DB) : db.Query.1.quizzes = db.quizzes := by
  unfold DB.Query DB.send
  cases nextFault db.faults with
  | none => cases hq : db.quizzes <;> simp [hq]
  | some f =>
    cases f with
    | refuse e => rfl
    | breakAfter k e =>
      cases k with
      | zero => rfl
      | succ k => cases hq : db.quizzes <;> simp [hq]

/-- The handler `getQuizzes` ends in the store state its query left. -/
theorem getQuizzes_state (db : DB) : (getQuizzes db).1 = db.Query.1 := by
  unfold getQuizzes
  rcases hq : db.Query with ⟨db1, res⟩
  cases res with
  | error e => rfl
  | ok rows =>
    cases hs : scanRows rows.rows Slice.nil with
    | error e => simp [hs]
    | ok quizzes => cases he : rows.err <;> simp [hs, he]

/-- The insert statement either fails and leaves the relation as it is, or
succeeds and adds one row after the rows that were there. -/
theorem queryRowInsert_rows (db : DB) (title description : String) :
    (∃ e, (db.QueryRowInsert title description).2 = .error e ∧
      (db.QueryRowInsert title description).1.quizzes = db.quizzes) ∨
    (∃ n r, (db.QueryRowInsert title description).2 = .ok n ∧
      (db.QueryRowInsert title description).1.rows = db.rows ++ [r]) := by
  unfold DB.QueryRowInsert DB.send
  cases nextFault db.faults with
  | some f => exact Or.inl ⟨f.err, rfl, rfl⟩
  | none =>
    cases hq : db.quizzes with
    | none => exact Or.inl ⟨undefinedTable, by simp [hq], by simp [hq]⟩
    | some t =>
      cases hv : varchar255 title with
      | none =>
        exact Or.inl ⟨"pq: value too long for type character varying(255)",
          by simp [hq, hv], by simp [hq, hv]⟩
      | some stored =>
        exact Or.inr ⟨t.seq, ⟨t.seq, stored, some description, some db.clock⟩,
          by simp [hq, hv], by simp [hq, hv, DB.rows]⟩

/-- C8: in every store state and for every request, `getQuizzes` leaves the
table as it is, and `createQuiz` either answers 201 and the rows afterwards are
the rows before followed by one new row, or answers 400 or 500 and leaves the
table as it is. -/
theorem handlers_keep_rows (db : DB) (c : Ctx) :
    (getQuizzes db).1.quizzes = db.quizzes ∧
    (((createQuiz db c).2.status = 201 ∧
        ∃ r, (createQuiz db c).1.rows = db.rows ++ [r]) ∨
      (((createQuiz db c).2.status = 400 ∨ (createQuiz db c).2.status = 500) ∧
        (createQuiz db c).1.quizzes = db.quizzes)) := by
  refine ⟨by rw [getQuizzes_state, query_quizzes], ?_⟩
  cases hp : c.BodyParser Quiz.zero with
  | error e =>
    rw [createQuiz_of_parse_error db c e hp]
    exact Or.inr ⟨Or.inl rfl, rfl⟩
  | ok q =>
    rcases hi : db.QueryRowInsert q.Title q.Description with ⟨db1, res⟩
    have key := queryRowInsert_rows db q.Title q.Description
    rw [hi] at key
    cases res with
    | error e =>
      rw [createQuiz_of_insert_error db db1 c q e hp hi]
      rcases key with ⟨_, _, hk⟩ | ⟨_, _, hk, _⟩
      · exact Or.inr ⟨Or.inr rfl, hk⟩
      · cases hk
    | ok n =>
      rw [createQuiz_of_insert_ok db db1 c q n hp hi]
      rcases key with ⟨_, hk, _⟩ | ⟨_, r, _, hk⟩
      · cases hk
      · exact Or.inl ⟨rfl, r, hk⟩

/-- C8 at the empty store: listing leaves it empty, a request with a numeric
title is answered 400 and adds nothing, a well-formed request is answered 201
and adds its row. -/
theorem handlers_keep_rows_witness :
    (getQuizzes emptyStore).1.quizzes = emptyStore.quizzes ∧
    ((createQuiz emptyStore numericTitle).2.status = 400 ∧
      (createQuiz emptyStore numericTitle).1.rows = []) ∧
    ((createQuiz emptyStore plainRequest).2.status = 201 ∧
      (createQuiz emptyStore plainRequest).1.rows
        = [⟨1, "Capitals", some "Cities", some 1700000000000000⟩]) :=
  ⟨(handlers_keep_rows emptyStore plainRequest).1, ⟨rfl, rfl⟩, ⟨rfl, rfl⟩⟩

/-! ## Properties of the echo loop -/

/-- Every frame read successfully is followed at once by a write of that very
frame. -/
theorem echoLoop_write_follows (reads : List (Except String Frame))
    (writes : List (Option String)) (i : Nat) (f : Frame)
    (h : (echoLoop reads writes)[i]? = some (.read (.ok f))) :
    ∃ err, (echoLoop reads writes)[i + 1]? = some (.write f err) := by
  induction reads generalizing writes i with
  | nil =>
    match i with
    | 0 => simp [echoLoop] at h
    | j + 1 => simp [echoLoop] at h
  | cons r rest ih =>
    cases r with
    | error e =>
      match i with
      | 0 => simp [echoLoop] at h
      | j + 1 => simp [echoLoop] at h
    | ok g =>
      cases writes with
      | nil =>
        match i with
        | 0 =>
          simp only [echoLoop, List.getElem?_cons_zero, Option.some.injEq, Event.read.injEq,
            Except.ok.injEq] at h
          exact ⟨none, by simp [echoLoop, h]⟩
        | 1 => simp [echoLoop] at h
        | j + 2 =>
          simp only [echoLoop, List.getElem?_cons_succ] at h ⊢
          exact ih [] j h
      | cons w ws =>
        cases w with
        | none =>
          match i with
          | 0 =>
            simp only [echoLoop, List.getElem?_cons_zero, Option.some.injEq, Event.read.injEq,
              Except.ok.injEq] at h
            exact ⟨none, by simp [echoLoop, h]⟩
          | 1 => simp [echoLoop] at h
          | j + 2 =>
            simp only [echoLoop, List.getElem?_cons_succ] at h ⊢
            exact ih ws j h
        | some e =>
          match i with
          | 0 =>
            simp only [echoLoop, List.getElem?_cons_zero, Option.some.injEq, Event.read.injEq,
              Except.ok.injEq] at h
            exact ⟨some e, by simp [echoLoop, h]⟩
          | 1 => simp [echoLoop] at h
          | j + 2 => simp [echoLoop] at h

/-- The frames written back are the first frames delivered, in their order. -/
theorem echoLoop_echoed_initial (reads : List (Except String Frame))
    (writes : List (Option String)) :
    echoed (echoLoop reads writes) <+: delivered reads := by
  induction reads generalizing writes with
  | nil => simp [echoLoop, echoed]
  | cons r rest ih =>
    cases r with
    | error e => simp [echoLoop, echoed]
    | ok g =>
      cases writes with
      | nil =>
        simp only [echoLoop, echoed, delivered]
        exact (List.prefix_cons_inj g).mpr (ih [])
      | cons w ws =>
        cases w with
        | none =>
          simp only [echoLoop, echoed, delivered]
          exact (List.prefix_cons_inj g).mpr (ih ws)
        | some e => simp [echoLoop, echoed]

/-- An event that reports an error is the last call of the loop. -/
theorem echoLoop_failed_last (reads : List (Except String Frame))
    (writes : List (Option String)) (i : Nat) (ev : Event)
    (h : (echoLoop reads writes)[i]? = some ev) (hf : ev.failed = true) :
    i + 1 = (echoLoop reads writes).length := by
  induction reads generalizing writes i with
  | nil =>
    match i with
    | 0 => simp [echoLoop]
    | j + 1 => simp [echoLoop] at h
  | cons r rest ih =>
    cases r with
    | error e =>
      match i with
      | 0 => simp [echoLoop]
      | j + 1 => simp [echoLoop] at h
    | ok g =>
      cases writes with
      | nil =>
        match i with
        | 0 => simp [echoLoop] at h; subst h; simp [Event.failed] at hf
        | 1 => simp [echoLoop] at h; subst h; simp [Event.failed] at hf
        | j + 2 =>
          simp only [echoLoop, List.getElem?_cons_succ, List.length_cons] at h ⊢
          have := ih [] j h
          omega
      | cons w ws =>
        cases w with
        | none =>
          match i with
          | 0 => simp [echoLoop] at h; subst h; simp [Event.failed] at hf
          | 1 => simp [echoLoop] at h; subst h; simp [Event.failed] at hf
          | j + 2 =>
            simp only [echoLoop, List.getElem?_cons_succ, List.length_cons] at h ⊢
            have := ih ws j h
            omega
        | some e =>
          match i with
          | 0 => simp [echoLoop] at h; subst h; simp [Event.failed] at hf
          | 1 => simp [echoLoop]
          | j + 2 => simp [echoLoop] at h

/-- The loop ends with a call that reports an error. -/
theorem echoLoop_ends_failed (reads : List (Except String Frame))
    (writes : List (Option String)) :
    ∃ ev, (echoLoop reads writes).getLast? = some ev ∧ ev.failed = true := by
  induction reads generalizing writes with
  | nil => exact ⟨_, rfl, rfl⟩
  | cons r rest ih =>
    cases r with
    | error e => exact ⟨_, rfl, rfl⟩
    | ok g =>
      cases writes with
      | nil =>
        obtain ⟨ev, h1, h2⟩ := ih []
        refine ⟨ev, ?_, h2⟩
        cases hl : echoLoop rest [] with
        | nil => simp [hl] at h1
        | cons x xs => simp [echoLoop, hl, List.getLast?_cons_cons] at h1 ⊢; exact h1
      | cons w ws =>
        cases w with
        | none =>
          obtain ⟨ev, h1, h2⟩ := ih ws
          refine ⟨ev, ?_, h2⟩
          cases hl : echoLoop rest ws with
          | nil => simp [hl] at h1
          | cons x xs => simp [echoLoop, hl, List.getLast?_cons_cons] at h1 ⊢; exact h1
        | some e => exact ⟨_, rfl, rfl⟩

/-- Every write is made right after the successful read of the frame it
writes. -/
theorem echoLoop_write_preceded (reads : List (Except String Frame))
    (writes : List (Option String)) (i : Nat) (f : Frame) (err : Option String)
    (h : (echoLoop reads writes)[i]? = some (.write f err)) :
    ∃ j, i = j + 1 ∧ (echoLoop reads writes)[j]? = some (.read (.ok f)) := by
  induction reads generalizing writes i with
  | nil =>
    match i with
    | 0 => simp [echoLoop] at h
    | j + 1 => simp [echoLoop] at h
  | cons r rest ih =>
    cases r with
    | error e =>
      match i with
      | 0 => simp [echoLoop] at h
      | j + 1 => simp [echoLoop] at h
    | ok g =>
      cases writes with
      | nil =>
        match i with
        | 0 => simp [echoLoop] at h
        | 1 =>
          simp only [echoLoop, List.getElem?_cons_succ, List.getElem?_cons_zero,
            Option.some.injEq, Event.write.injEq] at h
          exact ⟨0, rfl, by simp [echoLoop, h.1]⟩
        | j + 2 =>
          simp only [echoLoop, List.getElem?_cons_succ] at h
          obtain ⟨k, hk, hr⟩ := ih [] j h
          exact ⟨k + 2, by omega, by simpa [echoLoop] using hr⟩
      | cons w ws =>
        cases w with
        | none =>
          match i with
          | 0 => simp [echoLoop] at h
          | 1 =>
            simp only [echoLoop, List.getElem?_cons_succ, List.getElem?_cons_zero,
              Option.some.injEq, Event.write.injEq] at h
            exact ⟨0, rfl, by simp [echoLoop, h.1]⟩
          | j + 2 =>
            simp only [echoLoop, List.getElem?_cons_succ] at h
            obtain ⟨k, hk, hr⟩ := ih ws j h
            exact ⟨k + 2, by omega, by simpa [echoLoop] using hr⟩
        | some e =>
          match i with
          | 0 => simp [echoLoop] at h
          | 1 =>
            simp only [echoLoop, List.getElem?_cons_succ, List.getElem?_cons_zero,
              Option.some.injEq, Event.write.injEq] at h
            exact ⟨0, rfl, by simp [echoLoop, h.1]⟩
          | j + 2 => simp [echoLoop] at h

/-- The read calls of the loop return the entries of the read script, in order,
and the closed-connection error once the script is exhausted. -/
theorem echoLoop_reads_script (reads : List (Except String Frame))
    (writes : List (Option String)) (k : Nat) (r : Except String Frame)
    (h : (readResults (echoLoop reads writes))[k]? = some r) :
    r = (reads[k]?).getD (.error closedConn) := by
  induction reads generalizing writes k with
  | nil =>
    match k with
    | 0 => simp [echoLoop, readResults] at h; simp [h]
    | j + 1 => simp [echoLoop, readResults] at h
  | cons x rest ih =>
    cases x with
    | error e =>
      match k with
      | 0 => simp [echoLoop, readResults] at h; simp [h]
      | j + 1 => simp [echoLoop, readResults] at h
    | ok g =>
      cases writes with
      | nil =>
        match k with
        | 0 => simp [echoLoop, readResults] at h; simp [h]
        | j + 1 =>
          simp only [echoLoop, readResults, List.getElem?_cons_succ] at h ⊢
          exact ih [] j h
      | cons w ws =>
        cases w with
        | none =>
          match k with
          | 0 => simp [echoLoop, readResults] at h; simp [h]
          | j + 1 =>
            simp only [echoLoop, readResults, List.getElem?_cons_succ] at h ⊢
            exact ih ws j h
        | some e =>
          match k with
          | 0 => simp [echoLoop, readResults] at h; simp [h]
          | j + 1 => simp [echoLoop, readResults] at h

/-- The write calls of the loop return the entries of the write script, in
order, and succeed once the script is exhausted. -/
theorem echoLoop_writes_script (reads : List (Except String Frame))
    (writes : List (Option String)) (k : Nat) (w : Option String)
    (h : (writeResults (echoLoop reads writes))[k]? = some w) :
    w = (writes[k]?).getD none := by
  induction reads generalizing writes k with
  | nil => simp [echoLoop, writeResults] at h
  | cons x rest ih =>
    cases x with
    | error e => simp [echoLoop, writeResults] at h
    | ok g =>
      cases writes with
      | nil =>
        match k with
        | 0 => simp [echoLoop, writeResults] at h; simp [h]
        | j + 1 =>
          simp only [echoLoop, writeResults, List.getElem?_cons_succ] at h
          have := ih [] j h
          simpa using this
      | cons v ws =>
        cases v with
        | none =>
          match k with
          | 0 => simp [echoLoop, writeResults] at h; simp [h]
          | j + 1 =>
            simp only [echoLoop, writeResults, List.getElem?_cons_succ] at h ⊢
            exact ih ws j h
        | some e =>
          match k with
          | 0 => simp [echoLoop, writeResults] at h; simp [h]
          | j + 1 => simp [echoLoop, writeResults] at h

/-- The frames written back are all the frames delivered when the write script
has no error, and the frames delivered before the position of its first error
otherwise. -/
theorem echoLoop_echoed_eq (reads : List (Except String Frame))
    (writes : List (Option String)) :
    echoed (echoLoop reads writes) =
      match firstWriteError writes with
      | none => delivered reads
      | some k => (delivered reads).take k := by
  induction reads generalizing writes with
  | nil => cases firstWriteError writes <;> simp [echoLoop, echoed, delivered]
  | cons x rest ih =>
    cases x with
    | error e => cases firstWriteError writes <;> simp [echoLoop, echoed, delivered]
    | ok g =>
      cases writes with
      | nil =>
        have := ih []
        simp only [firstWriteError] at this
        simp [echoLoop, echoed, delivered, firstWriteError, this]
      | cons w ws =>
        cases w with
        | none =>
          have := ih ws
          cases hf : firstWriteError ws with
          | none =>
            simp only [hf] at this
            simp [echoLoop, echoed, delivered, firstWriteError, hf, this]
          | some k =>
            simp only [hf] at this
            simp [echoLoop, echoed, delivered, firstWriteError, hf, this]
        | some e => simp [echoLoop, echoed, delivered, firstWriteError]

/-- A write script without an error has no first error. -/
theorem firstWriteError_of_all_ok (writes : List (Option String))
    (h : ∀ w ∈ writes, w = none) : firstWriteError writes = none := by
  induction writes with
  | nil => rfl
  | cons w ws ih =>
    have hw := h w (List.mem_cons_self w ws)
    subst hw
    simp [firstWriteError, ih (fun v hv => h v (List.mem_cons_of_mem _ hv))]

/-- C10: for every script of read results and write results, (1) each frame
read successfully is followed at once by a `WriteMessage` call with the same
message type and the same bytes; (2) each `WriteMessage` call comes right after
the successful read of the frame it writes; (3) the `ReadMessage` calls return
the entries of the read script in order (the closed-connection error past its
end) and (4) the `WriteMessage` calls return the entries of the write script in
order (success past its end); (5) the frames written back are the frames the
connection delivered before its first read error, in the order received: all of
them when no write fails, and those before the position of the first write
error otherwise; (6) a failed read or a failed write is the last call the loop
makes, so nothing is read or written after the first error; (7) the loop ends,
and ends on such a failure. -/
theorem echoLoop_echoes (reads : List (Except String Frame)) (writes : List (Option String)) :
    (∀ (i : Nat) (f : Frame), (echoLoop reads writes)[i]? = some (.read (.ok f)) →
      ∃ err, (echoLoop reads writes)[i + 1]? = some (.write ⟨f.mt, f.msg⟩ err)) ∧
    (∀ (i : Nat) (f : Frame) (err : Option String),
      (echoLoop reads writes)[i]? = some (.write f err) →
      ∃ j, i = j + 1 ∧ (echoLoop reads writes)[j]? = some (.read (.ok f))) ∧
    (∀ (k : Nat) (r : Except String Frame),
      (readResults (echoLoop reads writes))[k]? = some r →
      r = (reads[k]?).getD (.error closedConn)) ∧
    (∀ (k : Nat) (w : Option String),
      (writeResults (echoLoop reads writes))[k]? = some w → w = (writes[k]?).getD none) ∧
    (echoed (echoLoop reads writes) <+: delivered reads ∧
      echoed (echoLoop reads writes) =
        (match firstWriteError writes with
          | none => delivered reads
          | some k => (delivered reads).take k) ∧
      ((∀ w ∈ writes, w = none) → echoed (echoLoop reads writes) = delivered reads)) ∧
    (∀ (i : Nat) (ev : Event), (echoLoop reads writes)[i]? = some ev → ev.failed = true →
      i + 1 = (echoLoop reads writes).length) ∧
    ∃ ev, (echoLoop reads writes).getLast? = some ev ∧ ev.failed = true :=
  ⟨fun i f h => echoLoop_write_follows reads writes i f h,
    fun i f err h => echoLoop_write_preceded reads writes i f err h,
    fun k r h => echoLoop_reads_script reads writes k r h,
    fun k w h => echoLoop_writes_script reads writes k w h,
    ⟨echoLoop_echoed_initial reads writes, echoLoop_echoed_eq reads writes,
      fun h => by rw [echoLoop_echoed_eq, firstWriteError_of_all_ok writes h]⟩,
    fun i ev h hf => echoLoop_failed_last reads writes i ev h hf,
    echoLoop_ends_failed reads writes⟩

/-- C10 at a connection that delivers two frames and then fails to read, and at
a connection whose second write fails: both frames are echoed in the first run,
only the first frame in the second. -/
theorem echoLoop_echoes_witness :
    echoLoop sampleReads [] =
      [.read (.ok ⟨1, [104, 105]⟩), .write ⟨1, [104, 105]⟩ none,
       .read (.ok ⟨2, [0, 255, 16]⟩), .write ⟨2, [0, 255, 16]⟩ none,
       .read (.error "read: connection reset by peer")] ∧
    echoLoop threeFrames [none, some "write: broken pipe"] =
      [.read (.ok ⟨1, [97]⟩), .write ⟨1, [97]⟩ none,
       .read (.ok ⟨1, [98]⟩), .write ⟨1, [98]⟩ (some "write: broken pipe")] ∧
    echoed (echoLoop sampleReads []) = [⟨1, [104, 105]⟩, ⟨2, [0, 255, 16]⟩] ∧
    echoed (echoLoop threeFrames [none, some "write: broken pipe"]) = [⟨1, [97]⟩] ∧
    echoed (echoLoop sampleReads []) = delivered sampleReads ∧
    echoed (echoLoop threeFrames [none, some "write: broken pipe"]) <+: delivered threeFrames :=
  ⟨rfl, rfl, rfl, rfl,
    (echoLoop_echoes sampleReads []).2.2.2.2.1.2.2 (by simp),
    (echoLoop_echoes threeFrames [none, some "write: broken pipe"]).2.2.2.2.1.1⟩

end Kahoot
